import Mathlib

/-!
Verification of the FreeCAD-render camera string codec
(`src/Render/camera.py`, legacy `src/camera.py`) and of the Cycles
renderer backend (`src/renderers/Cycles.py`).

Modelling conventions:
* Python floats are modelled as exact rationals (`ℚ`).  `math.degrees` /
  `math.radians` multiply/divide by a fixed rational constant `PIQ`
  standing for the float approximation of pi, so that the two are exact
  inverses, as they are (up to the documented 1e-6 tolerance) over floats.
* A token of the camera text is either a plain string (as produced by
  the shlex-based tokenizer on input text) or an exact number
  (`Tok.num q`), which stands for the decimal numeral that Python's
  float-repr prints for the float of value `q`; `float()` of that
  numeral returns exactly `q`, which is what `Tok.asFloat` implements.
* Python exceptions are modelled by the `CamErr` inductive; each
  constructor corresponds to the exception class (and message) raised by
  a specific line of the source.
-/

set_option maxRecDepth 40000

/-- A 3-component vector of exact rationals (models FreeCAD `App.Vector`). -/
structure Vec3 where
  x : ℚ
  y : ℚ
  z : ℚ
deriving DecidableEq, Repr

/-- Rational stand-in for the double-precision value of pi used by
`math.degrees` and `math.radians` (3.14159265358979323846).  Its exact
value is irrelevant to the codec's algebra; only `PIQ ≠ 0` matters. -/
def PIQ : ℚ := mkRat 314159265358979323846 100000000000000000000

/-- Rational multiplication written through `mkRat` so that it evaluates
by kernel reduction (the library's `Rat.mul` is irreducible); provably
equal to `*` by `qmul_eq`. -/
def qmul (a b : ℚ) : ℚ := mkRat (a.num * b.num) (a.den * b.den)

/-- Rational addition written through `mkRat`; provably equal to `+`. -/
def qadd (a b : ℚ) : ℚ :=
  mkRat (a.num * (b.den : ℤ) + b.num * (a.den : ℤ)) (a.den * b.den)

theorem qmul_eq (a b : ℚ) : qmul a b = a * b := by
  rw [qmul, Rat.mkRat_eq_div]
  push_cast
  rw [← div_mul_div_comm, Rat.num_div_den, Rat.num_div_den]

theorem qadd_eq (a b : ℚ) : qadd a b = a + b := by
  have ha : ((a.den : ℚ)) ≠ 0 := Nat.cast_ne_zero.mpr a.den_nz
  have hb : ((b.den : ℚ)) ≠ 0 := Nat.cast_ne_zero.mpr b.den_nz
  rw [qadd, Rat.mkRat_eq_div]
  push_cast
  conv_rhs => rw [← Rat.num_div_den a, ← Rat.num_div_den b, div_add_div _ _ ha hb]
  ring_nf

/-- The constant `180 / PIQ`, written as an explicit rational so that it
evaluates by kernel reduction. -/
def DEG_PER_RAD : ℚ := mkRat 18000000000000000000000 314159265358979323846

/-- The constant `PIQ / 180`. -/
def RAD_PER_DEG : ℚ := mkRat 314159265358979323846 18000000000000000000000

/-- Models Python `math.degrees` (radians to degrees): `x * 180 / pi`. -/
def qdegrees (x : ℚ) : ℚ := qmul x DEG_PER_RAD

/-- Models Python `math.radians` (degrees to radians): `x * pi / 180`. -/
def qradians (x : ℚ) : ℚ := qmul x RAD_PER_DEG

example : DEG_PER_RAD = 180 / PIQ := by
  rw [PIQ, DEG_PER_RAD, Rat.mkRat_eq_div, Rat.mkRat_eq_div]
  norm_num

example : RAD_PER_DEG = PIQ / 180 := by
  rw [PIQ, RAD_PER_DEG, Rat.mkRat_eq_div, Rat.mkRat_eq_div]
  norm_num

/-- `math.radians` and `math.degrees` are exact inverses in this model,
as they are over floats up to the codec's documented 1e-6 tolerance. -/
theorem qradians_qdegrees (x : ℚ) : qradians (qdegrees x) = x := by
  rw [qradians, qdegrees, qmul_eq, qmul_eq, mul_assoc,
    show DEG_PER_RAD * RAD_PER_DEG = 1 by rw [← qmul_eq]; decide, mul_one]

/-- Inverse identity in the other composition order. -/
theorem qdegrees_qradians (x : ℚ) : qdegrees (qradians x) = x := by
  rw [qradians, qdegrees, qmul_eq, qmul_eq, mul_assoc,
    show RAD_PER_DEG * DEG_PER_RAD = 1 by rw [← qmul_eq]; decide, mul_one]

/-- Models FreeCAD `App.Rotation`: an axis and an angle.  `Angle` is
stored in radians (FreeCAD's `Rotation.Angle` accessor unit). -/
structure CRotation where
  Axis : Vec3
  Angle : ℚ
deriving DecidableEq, Repr

/-- `App.Rotation(axis, deg)` takes its angle argument in degrees and
stores it; the `Angle` accessor reports radians. -/
def CRotation.ofDeg (axis : Vec3) (deg : ℚ) : CRotation :=
  ⟨axis, qradians deg⟩

/-- Models FreeCAD `App.Placement`: a position and a rotation. -/
structure CPlacement where
  Base : Vec3
  Rotation : CRotation
deriving DecidableEq, Repr

/-- The camera snapshot record: the properties of the `Camera`
FeaturePython object of `Render/camera.py` that the codec reads and
writes (`Height` in document units, `HeightAngle` in degrees). -/
structure CameraRecord where
  Projection : String
  ViewportMapping : String
  AspectRatio : ℚ
  NearDistance : ℚ
  FarDistance : ℚ
  FocalDistance : ℚ
  Height : ℚ
  HeightAngle : ℚ
  Placement : CPlacement
deriving DecidableEq, Repr

/-- `VIEWPORTMAPPINGENUM` of `Render/camera.py` (order preserved). -/
def VIEWPORTMAPPINGENUM : List String :=
  ["CROP_VIEWPORT_FILL_FRAME", "CROP_VIEWPORT_LINE_FRAME",
   "CROP_VIEWPORT_NO_FRAME", "ADJUST_CAMERA", "LEAVE_ALONE"]

/-- The allowed `Projection` values (`Camera.PROPERTIES["Projection"].Default`). -/
def PROJECTIONENUM : List String := ["Perspective", "Orthographic"]

/-- Python exceptions raised by the codec, one constructor per class:
`assertFail` for `AssertionError` (failed `assert`), `valueError` for an
explicit `raise ValueError(msg)`, `keyError` for an uncaught `KeyError`,
`indexError` for an uncaught `IndexError` (sequence index out of range),
`floatError` for the `ValueError` of `float()` on a non-numeric token,
`vectorError` for `App.Vector` applied to a sequence that is not three
numbers. -/
inductive CamErr where
  | assertFail (msg : String)
  | valueError (msg : String)
  | keyError (key : String)
  | indexError
  | floatError (tok : String)
  | vectorError
deriving DecidableEq, Repr

/-- Does the error constructor belong to the spec's `FormatError`
taxonomy class (malformed/incomplete input text reported on purpose:
the header `assert` and the re-raised missing-field `ValueError`)? -/
def CamErr.isFormat : CamErr → Bool
  | .assertFail _ => true
  | .valueError _ => true
  | _ => false

/-- Decimal digit characters used by the numeral printer. -/
def digCh : Nat → Char
  | 0 => '0'
  | 1 => '1'
  | 2 => '2'
  | 3 => '3'
  | 4 => '4'
  | 5 => '5'
  | 6 => '6'
  | 7 => '7'
  | 8 => '8'
  | 9 => '9'
  | _ => '?'

/-- Fuel-driven base-10 numeral printer (most significant digit first). -/
def natCharsAux : Nat → Nat → List Char
  | 0, _ => []
  | fuel + 1, n =>
    if n < 10 then [digCh n]
    else natCharsAux fuel (n / 10) ++ [digCh (n % 10)]

/-- Base-10 numeral of a natural number, as characters. -/
def natChars (n : Nat) : List Char := natCharsAux (n + 1) n

/-- Deterministic textual rendering of a rational, standing in for
Python's repr of a float: sign, numerator, and `/ denominator` when the
denominator is not 1.  Only injectivity and its character set matter. -/
def fmtQ (q : ℚ) : List Char :=
  (if q < 0 then ['-'] else []) ++ natChars q.num.natAbs ++
    (if q.den = 1 then [] else '/' :: natChars q.den)

/-- `fmtQ` packaged as a `String`. -/
def fmtS (q : ℚ) : String := ⟨fmtQ q⟩

/-- Numeric value of a digit character, if it is one. -/
def digVal? (c : Char) : Option Nat :=
  if '0' ≤ c ∧ c ≤ '9' then some (c.toNat - 48) else none

/-- Accumulating parser for a non-empty digit run. -/
def parseDigitsAux : List Char → Nat → Option Nat
  | [], acc => some acc
  | c :: cs, acc =>
    match digVal? c with
    | none => none
    | some d => parseDigitsAux cs (acc * 10 + d)

/-- Parse a non-empty all-digits character list as a natural number. -/
def parseDigits : List Char → Option Nat
  | [] => none
  | cs => parseDigitsAux cs 0

/-- Parse an unsigned decimal numeral (`"12"`, `"12.5"`, `"12."`); the
value of `"a.b"` is `(a*10^k + b) / 10^k` with `k` fractional digits. -/
def parseUQ (cs : List Char) : Option ℚ :=
  let intPart := cs.takeWhile fun c => c ≠ '.'
  match cs.dropWhile fun c => c ≠ '.' with
  | [] => (parseDigits intPart).map fun n => (n : ℚ)
  | '.' :: frac => do
    let i ← parseDigits intPart
    let f ← if frac = [] then some 0 else parseDigits frac
    some (mkRat (i * 10 ^ frac.length + f) (10 ^ frac.length))
  | _ => none

/-- Parse a signed decimal numeral; models Python `float(text)` (which
accepts an optional sign and a decimal literal and raises `ValueError`
otherwise). -/
def parseQchars : List Char → Option ℚ
  | '-' :: rest => (parseUQ rest).map fun q => -q
  | cs => parseUQ cs

/-- A token of the camera text: a plain string as produced by the
tokenizer, or an exact numeral produced by the serializer. -/
inductive Tok where
  | str (s : String)
  | num (q : ℚ)
deriving DecidableEq, Repr

instance exceptDecEq {ε α : Type} [DecidableEq ε] [DecidableEq α] :
    DecidableEq (Except ε α)
  | .ok a, .ok b =>
    if h : a = b then .isTrue (by rw [h]) else .isFalse (by simp [h])
  | .ok _, .error _ => .isFalse (by simp)
  | .error _, .ok _ => .isFalse (by simp)
  | .error e, .error f =>
    if h : e = f then .isTrue (by rw [h]) else .isFalse (by simp [h])

/-- The text of a token (models using the token as a Python `str`). -/
def Tok.toStr : Tok → String
  | .str s => s
  | .num q => fmtS q

/-- Models Python `float(token)`: exact value of a numeral token, parse
of a string token, `ValueError` when not numeric. -/
def Tok.asFloat : Tok → Except CamErr ℚ
  | .num q => .ok q
  | .str s =>
    match parseQchars s.data with
    | some q => .ok q
    | none => .error (.floatError s)

/-- Split a character list on a separator character, keeping empty
chunks (models `str.split`). -/
def splitOnChar (sep : Char) : List Char → List (List Char)
  | [] => [[]]
  | c :: cs =>
    match splitOnChar sep cs with
    | [] => if c = sep then [[], [c]] else [[c]]
    | l :: ls => if c = sep then [] :: l :: ls else (c :: l) :: ls

/-- Whitespace characters for word splitting. -/
def isWS (c : Char) : Bool := c = ' ' ∨ c = '\t' ∨ c = '\r'

/-- Split a line into whitespace-delimited words, dropping empties. -/
def wordsOf (cs : List Char) : List (List Char) :=
  ((cs.splitOnP isWS).filter fun w => !w.isEmpty)

/-- Models `shlex.split(line, comments=True)` for input without quoting
or escape characters: everything from the first `#` on is discarded and
the remainder is whitespace-split. -/
def shlexLine (cs : List Char) : List Tok :=
  (wordsOf (cs.takeWhile fun c => c ≠ '#')).map fun w => Tok.str ⟨w⟩

/-- Tokenization step of `set_cam_from_coin_string`:
`[shlex.split(x, comments=True) for x in camstr.split("\n")]`. -/
def tokenize (s : String) : List (List Tok) :=
  (splitOnChar '\n' s.data).map shlexLine

/-- The `camdata` list of `set_cam_from_coin_string`: the tokenized
lines with blank-token lines discarded (`... if y`). -/
def camDataOfTokens (tls : List (List Tok)) : List (List Tok) :=
  tls.filter fun y => !y.isEmpty

/-- Key/value view of one token line (`y[0]`, `y[1:]`). -/
def lineKV : List Tok → String × List Tok
  | [] => ("", [])
  | t :: ts => (t.toStr, ts)

/-- The `camdict` mapping `{y[0]: y[1:] for y in camdata}`. -/
def mkDict (camdata : List (List Tok)) : List (String × List Tok) :=
  camdata.map lineKV

/-- Python-dict lookup over the association list: the LAST binding of a
repeated key wins, as in a dict comprehension. -/
def dlookup (d : List (String × List Tok)) (k : String) : Option (List Tok) :=
  match d with
  | [] => none
  | (k', v) :: rest =>
    match dlookup rest k with
    | some r => some r
    | none => if k' = k then some v else none

/-- `camdata` of an input string. -/
def camDataOf (s : String) : List (List Tok) := camDataOfTokens (tokenize s)

/-- `camdict` of an input string. -/
def camDictOf (s : String) : List (String × List Tok) := mkDict (camDataOf s)

/-- Models `App.Vector(seq)` on a sequence of three tokens: converts
each to float; any other arity is a constructor error. -/
def appVector (ts : List Tok) : Except CamErr Vec3 :=
  match ts with
  | [a, b, c] =>
    match a.asFloat with
    | .error e => .error e
    | .ok xa =>
      match b.asFloat with
      | .error e => .error e
      | .ok yb =>
        match c.asFloat with
        | .error e => .error e
        | .ok zc => .ok ⟨xa, yb, zc⟩
  | _ => .error .vectorError

/-- Models `float(value_list[0])`: `IndexError` on an empty value list,
otherwise float conversion of the first token. -/
def headFloat (ts : List Tok) : Except CamErr ℚ :=
  match ts with
  | [] => .error .indexError
  | t :: _ => t.asFloat

/-- Header step of `set_cam_from_coin_string`
(`Render/camera.py:292-296`): `camdata[0][0][0:-6]` must be one of
`Perspective`/`Orthographic`, else the `assert` fails. The unconditional
`[0:-6]` slice simply drops the last six characters, whatever they are. -/
def parseHeader (camdata : List (List Tok)) : Except CamErr String :=
  match camdata with
  | [] => .error .indexError
  | line :: _ =>
    match line with
    | [] => .error .indexError
    | t :: _ =>
      let proj := (Tok.toStr t).dropRight 6
      if proj = "Perspective" ∨ proj = "Orthographic" then .ok proj
      else .error (.assertFail "Invalid camera header in camera string")

/-- Required-field step (`Render/camera.py:297-306`): position,
orientation (3 axis tokens and an angle token, the angle being converted
from radians to the degrees `App.Rotation` expects), focalDistance.
A `KeyError` of a missing key is re-raised as
`ValueError("Missing field in camera string: ...")`; any other failure
(`IndexError`, float `ValueError`) propagates unchanged. -/
def parseRequired (cam : CameraRecord) (camdict : List (String × List Tok)) :
    Except CamErr CameraRecord :=
  match dlookup camdict "position" with
  | none => .error (.valueError "Missing field in camera string: \x27position\x27")
  | some posv =>
    match appVector (posv.take 3) with
    | .error e => .error e
    | .ok pos =>
      match dlookup camdict "orientation" with
      | none => .error (.valueError "Missing field in camera string: \x27orientation\x27")
      | some oriv =>
        match appVector (oriv.take 3) with
        | .error e => .error e
        | .ok axis =>
          match oriv[3]? with
          | none => .error .indexError
          | some angTok =>
            match angTok.asFloat with
            | .error e => .error e
            | .ok ang =>
              let cam := { cam with
                Placement := ⟨pos, CRotation.ofDeg axis (qdegrees ang)⟩ }
              match dlookup camdict "focalDistance" with
              | none =>
                .error (.valueError "Missing field in camera string: \x27focalDistance\x27")
              | some fv =>
                match headFloat fv with
                | .error e => .error e
                | .ok focal => .ok { cam with FocalDistance := focal }

/-- `aspectRatio` step (`Render/camera.py:310-313`): missing key falls
back to 1.0 (`except KeyError`); a present but malformed value is not
caught. -/
def parseAspect (cam : CameraRecord) (camdict : List (String × List Tok)) :
    Except CamErr CameraRecord :=
  match dlookup camdict "aspectRatio" with
  | none => .ok { cam with AspectRatio := 1 }
  | some av =>
    match headFloat av with
    | .error e => .error e
    | .ok a => .ok { cam with AspectRatio := a }

/-- `viewportMapping` step (`Render/camera.py:314-317`): missing key
falls back to `"ADJUST_CAMERA"`. -/
def parseVPM (cam : CameraRecord) (camdict : List (String × List Tok)) :
    Except CamErr CameraRecord :=
  match dlookup camdict "viewportMapping" with
  | none => .ok { cam with ViewportMapping := "ADJUST_CAMERA" }
  | some vv =>
    match vv with
    | [] => .error .indexError
    | t :: _ => .ok { cam with ViewportMapping := t.toStr }

/-- `nearDistance` step (`Render/camera.py:320-323`): missing key is
silently skipped (`pass`), leaving the caller-supplied value. -/
def parseNear (cam : CameraRecord) (camdict : List (String × List Tok)) :
    Except CamErr CameraRecord :=
  match dlookup camdict "nearDistance" with
  | none => .ok cam
  | some nv =>
    match headFloat nv with
    | .error e => .error e
    | .ok v => .ok { cam with NearDistance := v }

/-- `farDistance` step (`Render/camera.py:324-327`): same as near. -/
def parseFar (cam : CameraRecord) (camdict : List (String × List Tok)) :
    Except CamErr CameraRecord :=
  match dlookup camdict "farDistance" with
  | none => .ok cam
  | some fv =>
    match headFloat fv with
    | .error e => .error e
    | .ok v => .ok { cam with FarDistance := v }

/-- Height step (`Render/camera.py:329-332`): `height` (Orthographic) or
`heightAngle` (Perspective, radians converted to degrees).  These
lookups are NOT wrapped in a try block: a missing key is an uncaught
`KeyError`. -/
def parseHeightPart (cam : CameraRecord) (camdict : List (String × List Tok)) :
    Except CamErr CameraRecord :=
  if cam.Projection = "Orthographic" then
    match dlookup camdict "height" with
    | none => .error (.keyError "height")
    | some hv =>
      match headFloat hv with
      | .error e => .error e
      | .ok v => .ok { cam with Height := v }
  else if cam.Projection = "Perspective" then
    match dlookup camdict "heightAngle" with
    | none => .error (.keyError "heightAngle")
    | some hv =>
      match headFloat hv with
      | .error e => .error e
      | .ok v => .ok { cam with HeightAngle := qdegrees v }
  else .ok cam

/-- `set_cam_from_coin_string` (`Render/camera.py:245-332`) after the
tokenization step, threading the camera record through each mutation in
source order.  An exception at any point aborts with that error. -/
def set_cam_from_coin_tokens (cam : CameraRecord) (tls : List (List Tok)) :
    Except CamErr CameraRecord :=
  let camdata := camDataOfTokens tls
  match parseHeader camdata with
  | .error e => .error e
  | .ok proj =>
    let cam := { cam with Projection := proj }
    let camdict := mkDict camdata
    (parseRequired cam camdict).bind fun cam =>
      (parseAspect cam camdict).bind fun cam =>
        (parseVPM cam camdict).bind fun cam =>
          (parseNear cam camdict).bind fun cam =>
            (parseFar cam camdict).bind fun cam =>
              parseHeightPart cam camdict

/-- `set_cam_from_coin_string` (`Render/camera.py:245-332`) on input
text: split lines, shlex-tokenize, then parse. -/
def set_cam_from_coin_string (cam : CameraRecord) (camstr : String) :
    Except CamErr CameraRecord :=
  set_cam_from_coin_tokens cam (tokenize camstr)

/-- Token lines of the text emitted by `get_coin_string_from_cam`
(`Render/camera.py:346-386`), in emission order.  Each entry below is
the token list that shlex-splitting yields for the corresponding line of
the emitted text: the `#Inventor` header is a comment and the following
three lines are blank (no tokens); the closing line of the block is the
two-character text `\x7d\x7d` because the source appends the plain
(non-f) string `"\x7d\x7d\n"`.  Numeric fields become `Tok.num` tokens
carrying the exact emitted value.  The two `assert` enum checks precede
any emission. -/
def get_coin_tokens_from_cam (cam : CameraRecord) :
    Except CamErr (List (List Tok)) :=
  if cam.Projection ∈ PROJECTIONENUM then
    if cam.ViewportMapping ∈ VIEWPORTMAPPINGENUM then
      let base := cam.Placement.Base
      let rot := cam.Placement.Rotation
      let heightLine : List Tok :=
        if cam.Projection = "Orthographic" then
          [.str "height", .num cam.Height]
        else if cam.Projection = "Perspective" then
          [.str "heightAngle", .num (qradians cam.HeightAngle)]
        else []
      .ok [[], [], [], [],
        [.str (cam.Projection ++ "Camera"), .str "\x7b"],
        [.str "viewportMapping", .str cam.ViewportMapping],
        [.str "position", .num base.x, .num base.y, .num base.z],
        [.str "orientation", .num rot.Axis.x, .num rot.Axis.y,
          .num rot.Axis.z, .num rot.Angle],
        [.str "nearDistance", .num cam.NearDistance],
        [.str "farDistance", .num cam.FarDistance],
        [.str "aspectRatio", .num cam.AspectRatio],
        [.str "focalDistance", .num cam.FocalDistance],
        heightLine,
        [.str "\x7d\x7d"],
        []]
    else .error (.assertFail "Camera: Invalid ViewportMapping value")
  else .error (.assertFail "Camera: Invalid Projection value")

/-- `get_coin_string_from_cam` (`Render/camera.py:346-386`): the exact
emitted text, numbers rendered through `fmtS`.  Note the closing element
is the plain string `"\x7d\x7d\n"` (the source line lacks the `f`
prefix, so `\x7d\x7d` is NOT collapsed to a single brace). -/
def get_coin_string_from_cam (cam : CameraRecord) : Except CamErr String :=
  if cam.Projection ∈ PROJECTIONENUM then
    if cam.ViewportMapping ∈ VIEWPORTMAPPINGENUM then
      let base := cam.Placement.Base
      let rot := cam.Placement.Rotation
      let height : String :=
        if cam.Projection = "Orthographic" then
          " height " ++ fmtS cam.Height
        else if cam.Projection = "Perspective" then
          " heightAngle " ++ fmtS (qradians cam.HeightAngle)
        else ""
      .ok (String.intercalate "\n"
        ["#Inventor V2.1 ascii\n\n\n",
         cam.Projection ++ "Camera \x7b",
         " viewportMapping " ++ cam.ViewportMapping,
         " position " ++ fmtS base.x ++ " " ++ fmtS base.y ++ " " ++ fmtS base.z,
         " orientation " ++ fmtS rot.Axis.x ++ " " ++ fmtS rot.Axis.y ++ " " ++
           fmtS rot.Axis.z ++ " " ++ fmtS rot.Angle,
         " nearDistance " ++ fmtS cam.NearDistance,
         " farDistance " ++ fmtS cam.FarDistance,
         " aspectRatio " ++ fmtS cam.AspectRatio,
         " focalDistance " ++ fmtS cam.FocalDistance,
         height,
         "\x7d\x7d\n"])
    else .error (.assertFail "Camera: Invalid ViewportMapping value")
  else .error (.assertFail "Camera: Invalid Projection value")

/-- `get_coin_string_from_cam` of the legacy module (`src/camera.py:396-425`):
identical emission except that the closing element is the single-brace
string `"\x7d\n"`. -/
def legacy_get_coin_string_from_cam (cam : CameraRecord) : Except CamErr String :=
  if cam.Projection ∈ PROJECTIONENUM then
    if cam.ViewportMapping ∈ VIEWPORTMAPPINGENUM then
      let base := cam.Placement.Base
      let rot := cam.Placement.Rotation
      let res0 : List String :=
        ["#Inventor V2.1 ascii\n\n\n",
         cam.Projection ++ "Camera \x7b",
         " viewportMapping " ++ cam.ViewportMapping,
         " position " ++ fmtS base.x ++ " " ++ fmtS base.y ++ " " ++ fmtS base.z,
         " orientation " ++ fmtS rot.Axis.x ++ " " ++ fmtS rot.Axis.y ++ " " ++
           fmtS rot.Axis.z ++ " " ++ fmtS rot.Angle,
         " nearDistance " ++ fmtS cam.NearDistance,
         " farDistance " ++ fmtS cam.FarDistance,
         " aspectRatio " ++ fmtS cam.AspectRatio,
         " focalDistance " ++ fmtS cam.FocalDistance]
      let res1 : List String :=
        if cam.Projection = "Orthographic" then
          res0 ++ [" height " ++ fmtS cam.Height]
        else if cam.Projection = "Perspective" then
          res0 ++ [" heightAngle " ++ fmtS (qradians cam.HeightAngle)]
        else res0
      .ok (String.intercalate "\n" (res1 ++ ["\x7d\n"]))
    else .error (.assertFail "Invalid ViewportMapping value")
  else .error (.assertFail "Invalid Projection value")

/-- Default camera record: the `PROPERTIES` defaults of the `Camera`
class of `Render/camera.py` (enumeration properties start at their first
allowed value; the default `App.Placement` is the identity placement
with axis `(0,0,1)`). -/
def defaultCam : CameraRecord :=
  { Projection := "Perspective"
    ViewportMapping := "CROP_VIEWPORT_FILL_FRAME"
    AspectRatio := 1
    NearDistance := 0
    FarDistance := 200
    FocalDistance := 100
    Height := 5
    HeightAngle := 60
    Placement := ⟨⟨0, 0, 0⟩, ⟨⟨0, 0, 1⟩, 0⟩⟩ }

example : parseQchars "0".data = some 0 := by decide
example : parseQchars "-1.5".data = some (mkRat (-3) 2) := by decide
example : Tok.asFloat (.str "0.25") = .ok (mkRat 1 4) := by decide
example : fmtS (5 : ℚ) = "5" := by decide
example : fmtS (mkRat (-3) 2) = "-3/2" := by decide
example :
    tokenize "PerspectiveCamera \x7b\n position 0 0 0\n\x7d" =
      [[.str "PerspectiveCamera", .str "\x7b"],
       [.str "position", .str "0", .str "0", .str "0"],
       [.str "\x7d"]] := by decide

/-! ### Round-trip (claim C1) -/

theorem dropRight6_perspective :
    "PerspectiveCamera".dropRight 6 = "Perspective" := by decide

theorem dropRight6_orthographic :
    "OrthographicCamera".dropRight 6 = "Orthographic" := by decide

set_option maxRecDepth 4000 in
/-- Claim C1: for every `CameraRecord` satisfying the type's invariants
(projection and viewport-mapping in their enumerations), parsing the
serialized camera text yields a record that agrees with the original in
projection, viewport-mapping, placement, focal distance, aspect ratio,
near/far distances, and whichever of height/heightAngle is active for
the projection — exactly, in this rational model, hence a fortiori
within the 1e-6 float tolerance. -/
theorem camera_codec_roundtrip (c r : CameraRecord)
    (hproj : r.Projection = "Perspective" ∨ r.Projection = "Orthographic")
    (hvm : r.ViewportMapping ∈ VIEWPORTMAPPINGENUM) :
    ∃ q, (get_coin_tokens_from_cam r).bind (set_cam_from_coin_tokens c) = .ok q ∧
      q.Projection = r.Projection ∧ q.ViewportMapping = r.ViewportMapping ∧
      q.Placement = r.Placement ∧ q.FocalDistance = r.FocalDistance ∧
      q.AspectRatio = r.AspectRatio ∧ q.NearDistance = r.NearDistance ∧
      q.FarDistance = r.FarDistance ∧
      (r.Projection = "Orthographic" → q.Height = r.Height) ∧
      (r.Projection = "Perspective" → q.HeightAngle = r.HeightAngle) := by
  obtain ⟨P, VM, AR, ND, FD, FocD, H, HA, ⟨⟨Bx, By, Bz⟩, ⟨⟨Ax, Ay, Az⟩, An⟩⟩⟩ := r
  simp only at hproj hvm
  rcases hproj with h | h <;> subst h <;>
    simp [get_coin_tokens_from_cam, PROJECTIONENUM, hvm,
      set_cam_from_coin_tokens, camDataOfTokens, List.filter,
      parseHeader, Tok.toStr, dropRight6_perspective, dropRight6_orthographic,
      mkDict, lineKV, dlookup, parseRequired, appVector, Tok.asFloat,
      headFloat, parseAspect, parseVPM, parseNear, parseFar,
      parseHeightPart, CRotation.ofDeg, qradians_qdegrees, qdegrees_qradians,
      Except.bind]

/-- Witness for C1: the round trip applied to the default perspective
camera record. -/
theorem camera_codec_roundtrip_witness :
    ∃ q, (get_coin_tokens_from_cam defaultCam).bind
        (set_cam_from_coin_tokens defaultCam) = .ok q ∧
      q.Projection = defaultCam.Projection ∧
      q.HeightAngle = defaultCam.HeightAngle := by
  obtain ⟨q, h1, h2, -, -, -, -, -, -, -, h3⟩ :=
    camera_codec_roundtrip defaultCam defaultCam (by decide) (by decide)
  exact ⟨q, h1, h2, h3 rfl⟩

/-! ### Serialized text layout (claim C2) -/

/-- The orthographic camera record with the default numeric fields. -/
def defaultOrtho : CameraRecord :=
  { defaultCam with Projection := "Orthographic",
                    ViewportMapping := "ADJUST_CAMERA" }

/-- Claim C2 (code evaluation): `get_coin_string_from_cam` of
`Render/camera.py` emits the header and the fields in the documented
order, but closes the block with the two-character line `\x7d\x7d`: the
source appends the plain string `"\x7d\x7d\n"`, keeping the f-string
escape in a list element that has no `f` prefix.  The legacy serializer
of `src/camera.py`, evaluated on the same record, closes with the
single-brace line `\x7d` that the documented grammar requires. -/
theorem get_coin_string_double_brace :
    get_coin_string_from_cam defaultOrtho =
      .ok ("#Inventor V2.1 ascii\n\n\n\nOrthographicCamera \x7b\n" ++
        " viewportMapping ADJUST_CAMERA\n position 0 0 0\n" ++
        " orientation 0 0 1 0\n nearDistance 0\n farDistance 200\n" ++
        " aspectRatio 1\n focalDistance 100\n height 5\n\x7d\x7d\n") ∧
    legacy_get_coin_string_from_cam defaultOrtho =
      .ok ("#Inventor V2.1 ascii\n\n\n\nOrthographicCamera \x7b\n" ++
        " viewportMapping ADJUST_CAMERA\n position 0 0 0\n" ++
        " orientation 0 0 1 0\n nearDistance 0\n farDistance 200\n" ++
        " aspectRatio 1\n focalDistance 100\n height 5\n\x7d\n") := by
  decide

/-! ### Header rejection (claim C3) -/

/-- An input whose first token `Perspectivecamera` does not end in the
literal `Camera` (lowercase `c`), yet parses successfully: the source
strips the trailing six characters unconditionally (`[0:-6]`) and never
checks that they are `Camera`. -/
def exC3 : String :=
  "Perspectivecamera \x7b\n position 0 0 0\n orientation 0 0 1 0\n" ++
    " focalDistance 5\n heightAngle 1\n\x7d"

/-- Counterexample to C3 as stated: the leading token of the first
non-blank line of `exC3` ends neither in `PerspectiveCamera` nor in
`OrthographicCamera` (so the claim demands a `FormatError`), yet
`set_cam_from_coin_string` accepts the input and produces a record. -/
theorem header_without_Camera_suffix_accepted :
    (camDataOf exC3).head? =
      some [Tok.str "Perspectivecamera", Tok.str "\x7b"] ∧
    ¬ "PerspectiveCamera".data <:+ "Perspectivecamera".data ∧
    ¬ "OrthographicCamera".data <:+ "Perspectivecamera".data ∧
    (set_cam_from_coin_string defaultCam exC3).isOk = true := by
  decide

/-- Claim C3 as amended: the parser rejects (with the header
`AssertionError`, the spec's `FormatError`) exactly those inputs whose
first token, after dropping its last SIX CHARACTERS whatever they are,
is not `Perspective` or `Orthographic`. -/
theorem parse_header_reject (c : CameraRecord) (s : String)
    (t0 : Tok) (l0 : List Tok) (rest : List (List Tok))
    (hdata : camDataOf s = (t0 :: l0) :: rest)
    (hbad : (t0.toStr.dropRight 6) ∉ PROJECTIONENUM) :
    set_cam_from_coin_string c s =
      .error (.assertFail "Invalid camera header in camera string") := by
  have hhead : parseHeader (camDataOf s) =
      .error (.assertFail "Invalid camera header in camera string") := by
    rw [hdata]
    simp only [parseHeader]
    rw [if_neg]
    intro hor
    exact hbad (by simpa [PROJECTIONENUM] using hor)
  show set_cam_from_coin_tokens c (tokenize s) = _
  simp only [set_cam_from_coin_tokens]
  rw [show camDataOfTokens (tokenize s) = camDataOf s from rfl, hhead]

/-- Witness for the amended C3: a header token whose last six characters
are not `Camera` and whose stripped text is not a projection name. -/
theorem parse_header_reject_witness :
    set_cam_from_coin_string defaultCam "NotACamera \x7b\n\x7d" =
      .error (.assertFail "Invalid camera header in camera string") :=
  parse_header_reject defaultCam "NotACamera \x7b\n\x7d"
    (Tok.str "NotACamera") [Tok.str "\x7b"] [[Tok.str "\x7d"]]
    (by decide) (by decide)

/-! ### Missing required fields (claim C4) -/

/-- If the required-field stage fails, the whole parse fails with that
error (the header already parsed to a valid projection). -/
theorem set_cam_error_of_required (c : CameraRecord) (s : String)
    (proj : String) (e : CamErr)
    (hhead : parseHeader (camDataOf s) = .ok proj)
    (hreq : parseRequired { c with Projection := proj } (camDictOf s) = .error e) :
    set_cam_from_coin_string c s = .error e := by
  show set_cam_from_coin_tokens c (tokenize s) = _
  simp only [set_cam_from_coin_tokens]
  rw [show camDataOfTokens (tokenize s) = camDataOf s from rfl, hhead]
  show (parseRequired _ _).bind _ = _
  rw [show mkDict (camDataOf s) = camDictOf s from rfl, hreq]
  rfl

/-- Claim C4: with a valid camera header, a missing `position`,
`orientation` or `focalDistance` key makes the parse fail with the
re-raised `ValueError` naming exactly that field (each case assuming the
previously read fields were present and well-formed, matching the
source's evaluation order). -/
theorem parse_missing_required_field (c : CameraRecord) (s : String)
    (proj : String) (hhead : parseHeader (camDataOf s) = .ok proj) :
    (dlookup (camDictOf s) "position" = none →
      set_cam_from_coin_string c s =
        .error (.valueError "Missing field in camera string: \x27position\x27")) ∧
    (∀ pv pos, dlookup (camDictOf s) "position" = some pv →
      appVector (pv.take 3) = .ok pos →
      dlookup (camDictOf s) "orientation" = none →
      set_cam_from_coin_string c s =
        .error (.valueError "Missing field in camera string: \x27orientation\x27")) ∧
    (∀ pv pos ov axis angTok ang,
      dlookup (camDictOf s) "position" = some pv →
      appVector (pv.take 3) = .ok pos →
      dlookup (camDictOf s) "orientation" = some ov →
      appVector (ov.take 3) = .ok axis →
      ov[3]? = some angTok → angTok.asFloat = .ok ang →
      dlookup (camDictOf s) "focalDistance" = none →
      set_cam_from_coin_string c s =
        .error (.valueError "Missing field in camera string: \x27focalDistance\x27")) := by
  refine ⟨fun h => ?_, fun pv pos hp hv ho => ?_,
    fun pv pos ov axis angTok ang hp hv ho hax hidx hang hf => ?_⟩
  · exact set_cam_error_of_required c s proj _ hhead (by simp [parseRequired, h])
  · exact set_cam_error_of_required c s proj _ hhead
      (by simp [parseRequired, hp, hv, ho])
  · exact set_cam_error_of_required c s proj _ hhead
      (by simp [parseRequired, hp, hv, ho, hax, hidx, hang, hf])

/-- Input without a `position` line. -/
def exNoPos : String :=
  "PerspectiveCamera \x7b\n orientation 0 0 1 0\n focalDistance 5\n" ++
    " heightAngle 1\n\x7d"

/-- Input without an `orientation` line. -/
def exNoOri : String :=
  "PerspectiveCamera \x7b\n position 0 0 0\n focalDistance 5\n" ++
    " heightAngle 1\n\x7d"

/-- Input without a `focalDistance` line. -/
def exNoFoc : String :=
  "PerspectiveCamera \x7b\n position 0 0 0\n orientation 0 0 1 0\n" ++
    " heightAngle 1\n\x7d"

/-- Witness for C4 on all three required fields. -/
theorem parse_missing_required_field_witness :
    set_cam_from_coin_string defaultCam exNoPos =
      .error (.valueError "Missing field in camera string: \x27position\x27") ∧
    set_cam_from_coin_string defaultCam exNoOri =
      .error (.valueError "Missing field in camera string: \x27orientation\x27") ∧
    set_cam_from_coin_string defaultCam exNoFoc =
      .error (.valueError "Missing field in camera string: \x27focalDistance\x27") :=
  ⟨(parse_missing_required_field defaultCam exNoPos "Perspective"
      (by decide)).1 (by decide),
   (parse_missing_required_field defaultCam exNoOri "Perspective"
      (by decide)).2.1 [Tok.str "0", Tok.str "0", Tok.str "0"] ⟨0, 0, 0⟩
      (by decide) (by decide) (by decide),
   (parse_missing_required_field defaultCam exNoFoc "Perspective"
      (by decide)).2.2 [Tok.str "0", Tok.str "0", Tok.str "0"] ⟨0, 0, 0⟩
      [Tok.str "0", Tok.str "0", Tok.str "1", Tok.str "0"] ⟨0, 0, 1⟩
      (Tok.str "0") 0 (by decide) (by decide) (by decide) (by decide)
      (by decide) (by decide) (by decide)⟩

/-! ### Short orientation (claim C5) -/

/-- Input whose `orientation` line has only three numeric tokens. -/
def exC5 : String :=
  "PerspectiveCamera \x7b\n position 0 0 0\n orientation 0 0 1\n" ++
    " focalDistance 5\n heightAngle 1\n\x7d"

/-- Counterexample to C5 as stated: on `exC5` the parse fails with the
uncaught `IndexError` of `camdict["orientation"][3]` — an error outside
the spec's `FormatError` class (only `KeyError` is caught and re-raised;
`IndexError` propagates raw). -/
theorem orientation_short_raises_index_error :
    set_cam_from_coin_string defaultCam exC5 = .error .indexError ∧
    CamErr.isFormat .indexError = false := by decide

/-- Claim C5 as amended: with a valid header and a well-formed
`position`, an `orientation` value of exactly three numeric tokens makes
the parse fail with an uncaught `IndexError` (not a `FormatError`). -/
theorem parse_orientation_three_tokens (c : CameraRecord) (s : String)
    (proj : String) (pv : List Tok) (pos : Vec3) (ta tb tc : Tok) (axis : Vec3)
    (hhead : parseHeader (camDataOf s) = .ok proj)
    (hp : dlookup (camDictOf s) "position" = some pv)
    (hv : appVector (pv.take 3) = .ok pos)
    (ho : dlookup (camDictOf s) "orientation" = some [ta, tb, tc])
    (hax : appVector [ta, tb, tc] = .ok axis) :
    set_cam_from_coin_string c s = .error .indexError :=
  set_cam_error_of_required c s proj _ hhead
    (by simp [parseRequired, hp, hv, ho, hax])

/-- Witness for the amended C5. -/
theorem parse_orientation_three_tokens_witness :
    set_cam_from_coin_string defaultCam exC5 = .error .indexError :=
  parse_orientation_three_tokens defaultCam exC5 "Perspective"
    [Tok.str "0", Tok.str "0", Tok.str "0"] ⟨0, 0, 0⟩
    (Tok.str "0") (Tok.str "0") (Tok.str "1") ⟨0, 0, 1⟩
    (by decide) (by decide) (by decide) (by decide) (by decide)

/-! ### Optional-field fallbacks (claim C6) -/

theorem parseAspect_none (cam : CameraRecord) (d : List (String × List Tok))
    (h : dlookup d "aspectRatio" = none) :
    parseAspect cam d = .ok { cam with AspectRatio := 1 } := by
  simp [parseAspect, h]

theorem parseVPM_none (cam : CameraRecord) (d : List (String × List Tok))
    (h : dlookup d "viewportMapping" = none) :
    parseVPM cam d = .ok { cam with ViewportMapping := "ADJUST_CAMERA" } := by
  simp [parseVPM, h]

theorem parseAspect_presVM (cam : CameraRecord) (d : List (String × List Tok))
    (r : CameraRecord) (h : parseAspect cam d = .ok r) :
    r.ViewportMapping = cam.ViewportMapping := by
  unfold parseAspect at h
  repeat' split at h
  all_goals first
  | exact Except.noConfusion h
  | (cases h; rfl)

theorem parseVPM_presAR (cam : CameraRecord) (d : List (String × List Tok))
    (r : CameraRecord) (h : parseVPM cam d = .ok r) :
    r.AspectRatio = cam.AspectRatio := by
  unfold parseVPM at h
  repeat' split at h
  all_goals first
  | exact Except.noConfusion h
  | (cases h; rfl)

theorem parseNear_pres (cam : CameraRecord) (d : List (String × List Tok))
    (r : CameraRecord) (h : parseNear cam d = .ok r) :
    r.AspectRatio = cam.AspectRatio ∧ r.ViewportMapping = cam.ViewportMapping := by
  unfold parseNear at h
  repeat' split at h
  all_goals first
  | exact Except.noConfusion h
  | (cases h; exact ⟨rfl, rfl⟩)

theorem parseFar_pres (cam : CameraRecord) (d : List (String × List Tok))
    (r : CameraRecord) (h : parseFar cam d = .ok r) :
    r.AspectRatio = cam.AspectRatio ∧ r.ViewportMapping = cam.ViewportMapping := by
  unfold parseFar at h
  repeat' split at h
  all_goals first
  | exact Except.noConfusion h
  | (cases h; exact ⟨rfl, rfl⟩)

theorem parseHeightPart_pres (cam : CameraRecord) (d : List (String × List Tok))
    (r : CameraRecord) (h : parseHeightPart cam d = .ok r) :
    r.AspectRatio = cam.AspectRatio ∧ r.ViewportMapping = cam.ViewportMapping := by
  unfold parseHeightPart at h
  repeat' split at h
  all_goals first
  | exact Except.noConfusion h
  | (cases h; exact ⟨rfl, rfl⟩)

/-- Claim C6: whenever the parse succeeds, an absent `aspectRatio` field
yields `AspectRatio = 1.0` and an absent `viewportMapping` field yields
`ViewportMapping = "ADJUST_CAMERA"` — the `except KeyError` fallbacks of
`Render/camera.py:308-317`; neither absence is an error. -/
theorem parse_optional_defaults (c : CameraRecord) (s : String)
    (r : CameraRecord) (h : set_cam_from_coin_string c s = .ok r) :
    (dlookup (camDictOf s) "aspectRatio" = none → r.AspectRatio = 1) ∧
    (dlookup (camDictOf s) "viewportMapping" = none →
      r.ViewportMapping = "ADJUST_CAMERA") := by
  have h' : set_cam_from_coin_tokens c (tokenize s) = .ok r := h
  simp only [set_cam_from_coin_tokens] at h'
  cases hh : parseHeader (camDataOfTokens (tokenize s)) with
  | error e => simp only [hh, reduceCtorEq] at h'
  | ok proj =>
    simp only [hh] at h'
    cases h1 : parseRequired { c with Projection := proj }
        (mkDict (camDataOfTokens (tokenize s))) with
    | error e => simp only [h1, Except.bind, reduceCtorEq] at h'
    | ok cam1 =>
      simp only [h1, Except.bind] at h'
      cases h2 : parseAspect cam1 (mkDict (camDataOfTokens (tokenize s))) with
      | error e => simp only [h2, reduceCtorEq] at h'
      | ok cam2 =>
        simp only [h2] at h'
        cases h3 : parseVPM cam2 (mkDict (camDataOfTokens (tokenize s))) with
        | error e => simp only [h3, reduceCtorEq] at h'
        | ok cam3 =>
          simp only [h3] at h'
          cases h4 : parseNear cam3 (mkDict (camDataOfTokens (tokenize s))) with
          | error e => simp only [h4, reduceCtorEq] at h'
          | ok cam4 =>
            simp only [h4] at h'
            cases h5 : parseFar cam4 (mkDict (camDataOfTokens (tokenize s))) with
            | error e => simp only [h5, reduceCtorEq] at h'
            | ok cam5 =>
              simp only [h5] at h'
              constructor
              · intro hAR
                have hAR' : dlookup (mkDict (camDataOfTokens (tokenize s)))
                    "aspectRatio" = none := hAR
                rw [parseAspect_none cam1 _ hAR'] at h2
                cases h2
                have e3 := parseVPM_presAR _ _ _ h3
                have e4 := (parseNear_pres _ _ _ h4).1
                have e5 := (parseFar_pres _ _ _ h5).1
                have e6 := (parseHeightPart_pres _ _ _ h').1
                rw [e6, e5, e4, e3]
              · intro hVM
                have hVM' : dlookup (mkDict (camDataOfTokens (tokenize s)))
                    "viewportMapping" = none := hVM
                rw [parseVPM_none cam2 _ hVM'] at h3
                cases h3
                have e4 := (parseNear_pres _ _ _ h4).2
                have e5 := (parseFar_pres _ _ _ h5).2
                have e6 := (parseHeightPart_pres _ _ _ h').2
                rw [e6, e5, e4]

/-- Input omitting both `aspectRatio` and `viewportMapping`. -/
def exC6 : String :=
  "OrthographicCamera \x7b\n position 0 0 1\n orientation 0 0 1 0\n" ++
    " focalDistance 5\n height 4\n\x7d"

/-- Witness for C6: the parse of `exC6` succeeds and yields the two
documented fallback values. -/
theorem parse_optional_defaults_witness :
    ((set_cam_from_coin_string defaultCam exC6).map
      fun r => (r.AspectRatio, r.ViewportMapping)) = .ok (1, "ADJUST_CAMERA") := by
  cases hp : set_cam_from_coin_string defaultCam exC6 with
  | error e =>
    have hok : (set_cam_from_coin_string defaultCam exC6).isOk = true := by decide
    rw [hp] at hok
    exact Bool.noConfusion hok
  | ok r =>
    obtain ⟨h1, h2⟩ := parse_optional_defaults defaultCam exC6 r hp
    simp [Except.map, h1 (by decide), h2 (by decide)]

/-! ### Cycles emitter text as fixed/variable segments

The Cycles `write_object` snippet is a Python format string: fixed text
chunks alternating with interpolated values.  We keep that structure
explicitly so that (non-)occurrence of an XML node construct can be
settled for every interpolation. -/

/-- One chunk of emitted text: literal text of the format string, or an
interpolated value. -/
inductive Seg where
  | fixed (s : String)
  | var (cs : List Char)

/-- Characters of a segment. -/
def Seg.chars : Seg → List Char
  | .fixed s => s.data
  | .var cs => cs

/-- Flatten a segment list to the emitted character sequence. -/
def flatSegs : List Seg → List Char
  | [] => []
  | s :: rest => s.chars ++ flatSegs rest

theorem flatSegs_append (a b : List Seg) :
    flatSegs (a ++ b) = flatSegs a ++ flatSegs b := by
  induction a with
  | nil => rfl
  | cons s rest ih => simp [flatSegs, ih]

theorem inf_of_pre {α : Type} {l₁ l₂ : List α} (h : l₁ <+: l₂) : l₁ <:+: l₂ := by
  obtain ⟨t, ht⟩ := h
  exact ⟨[], t, by simp [ht]⟩

theorem inf_of_suf {α : Type} {l₁ l₂ : List α} (h : l₁ <:+ l₂) : l₁ <:+: l₂ := by
  obtain ⟨t, ht⟩ := h
  exact ⟨t, [], by simp [ht]⟩

/-- The characters of any listed segment occur contiguously in the
flattened text. -/
theorem chars_infix_flat (s : Seg) (segs : List Seg) (h : s ∈ segs) :
    s.chars <:+: flatSegs segs := by
  induction segs with
  | nil => cases h
  | cons a rest ih =>
    rcases List.mem_cons.mp h with rfl | h'
    · exact inf_of_pre ( List.prefix_append _ _)
    · exact (ih h').trans (inf_of_suf ( List.suffix_append _ _))

/-- A contiguous sub-list of segments flattens to a contiguous part of
the whole text. -/
theorem seg_infix_flat (sub segs : List Seg) (h : sub <:+: segs) :
    flatSegs sub <:+: flatSegs segs := by
  obtain ⟨pre, post, hps⟩ := h
  exact ⟨flatSegs pre, flatSegs post, by
    rw [← flatSegs_append, ← flatSegs_append, hps]⟩

/-- Soundness condition for ruling out an occurrence of the pattern
`hd :: _` : a fixed chunk neither contains the pattern nor ends with a
non-empty prefix of it; a variable chunk is free of the pattern's head
character. -/
@[reducible] def SegOkN (hd : Char) (p : List Char) : Seg → Prop
  | .fixed f => ¬ p <:+: f.data ∧ ∀ t ∈ f.data.tails, t = [] ∨ ¬ t <+: p
  | .var v => hd ∉ v

/-- Decompose a suffix of an append. -/
theorem suffix_split {α : Type} {t a b : List α} (h : t <:+ a ++ b) :
    t <:+ b ∨ ∃ t₁, t₁ <:+ a ∧ t = t₁ ++ b := by
  obtain ⟨u, hu⟩ := h
  rcases List.append_eq_append_iff.mp hu with ⟨w, ha, hb⟩ | ⟨w, ha, hb⟩
  · exact Or.inr ⟨w, ⟨u, ha.symm⟩, hb⟩
  · exact Or.inl ⟨w, hb.symm⟩

/-- No suffix of the flattened text of checked segments starts with the
pattern. -/
theorem not_occ_flat_aux (hd : Char) (q : List Char) (segs : List Seg)
    (hsegs : ∀ s ∈ segs, SegOkN hd (hd :: q) s) :
    ∀ t, t <:+ flatSegs segs → ¬ (hd :: q) <+: t := by
  induction segs with
  | nil =>
    intro t ht hp
    rw [List.suffix_nil.mp ht] at hp
    exact List.cons_ne_nil hd q ( List.prefix_nil.mp hp)
  | cons seg rest ih =>
    intro t ht hp
    have hseg := hsegs seg (List.mem_cons_self seg rest)
    have hrest : ∀ s ∈ rest, SegOkN hd (hd :: q) s :=
      fun s hs => hsegs s (List.mem_cons_of_mem _ hs)
    rw [show flatSegs (seg :: rest) = seg.chars ++ flatSegs rest from rfl] at ht
    rcases suffix_split ht with hb | ⟨t₁, ht₁, rfl⟩
    · exact ih hrest t hb hp
    · cases t₁ with
      | nil => exact ih hrest _ ( List.suffix_refl _) (by simpa using hp)
      | cons c t₁' =>
        cases seg with
        | var v =>
          have hc : c ∈ v := ht₁.subset (List.mem_cons_self c t₁')
          rw [List.cons_append, List.cons_prefix_cons] at hp
          exact hseg (hp.1 ▸ hc)
        | fixed f =>
          obtain ⟨hninf, htails⟩ := hseg
          have htt : (c :: t₁') <+: (c :: t₁') ++ flatSegs rest :=
            List.prefix_append _ _
          rcases List.prefix_or_prefix_of_prefix hp htt with h1 | h2
          · exact hninf ((inf_of_pre h1).trans (inf_of_suf ht₁))
          · rcases htails (c :: t₁') ((List.mem_tails _ _).mpr ht₁) with h | h
            · exact List.cons_ne_nil c t₁' h
            · exact h h2

/-- The pattern `hd :: q` does not occur in the flattened text of a
segment list whose members all satisfy `SegOkN`. -/
theorem not_occ_flat (hd : Char) (q : List Char) (segs : List Seg)
    (hsegs : ∀ s ∈ segs, SegOkN hd (hd :: q) s) :
    ¬ (hd :: q) <:+: flatSegs segs := by
  intro hinf
  rcases List.infix_iff_prefix_suffix.mp hinf with ⟨t, hpre, hsuf⟩
  exact not_occ_flat_aux hd q segs hsegs t hsuf hpre

/-! ### Character sets of interpolated numerals -/

theorem digCh_ne_lt (d : Nat) : digCh d ≠ '<' := by
  unfold digCh
  split <;> decide

theorem natCharsAux_ne_lt (fuel : Nat) :
    ∀ n c, c ∈ natCharsAux fuel n → c ≠ '<' := by
  induction fuel with
  | zero => intro n c h; simp [natCharsAux] at h
  | succ f ih =>
    intro n c h
    simp only [natCharsAux] at h
    split at h
    · rw [List.mem_singleton] at h
      exact h ▸ digCh_ne_lt n
    · rcases List.mem_append.mp h with h1 | h2
      · exact ih _ _ h1
      · rw [List.mem_singleton] at h2
        exact h2 ▸ digCh_ne_lt _

theorem natChars_ne_lt (n : Nat) (c : Char) (h : c ∈ natChars n) : c ≠ '<' :=
  natCharsAux_ne_lt _ _ _ h

theorem fmtQ_ne_lt (q : ℚ) (c : Char) (h : c ∈ fmtQ q) : c ≠ '<' := by
  unfold fmtQ at h
  rcases List.mem_append.mp h with h1 | h2
  · rcases List.mem_append.mp h1 with ha | hb
    · split at ha
      · rw [List.mem_singleton] at ha
        exact ha ▸ (by decide)
      · simp at ha
    · exact natChars_ne_lt _ _ hb
  · split at h2
    · simp at h2
    · rcases List.mem_cons.mp h2 with hc | hc
      · exact hc ▸ (by decide)
      · exact natChars_ne_lt _ _ hc

/-- Separator-joined blobs: every character comes from the separator or
from one of the chunks. -/
def joinSep (sep : List Char) : List (List Char) → List Char
  | [] => []
  | [x] => x
  | x :: y :: ys => x ++ sep ++ joinSep sep (y :: ys)

theorem joinSep_mem (sep : List Char) (xs : List (List Char)) (c : Char)
    (h : c ∈ joinSep sep xs) : c ∈ sep ∨ ∃ x ∈ xs, c ∈ x := by
  induction xs with
  | nil => simp [joinSep] at h
  | cons x xs ih =>
    cases xs with
    | nil =>
      simp only [joinSep] at h
      exact Or.inr ⟨x, by simp, h⟩
    | cons y ys =>
      simp only [joinSep] at h
      rcases List.mem_append.mp h with h1 | h2
      · rcases List.mem_append.mp h1 with ha | hb
        · exact Or.inr ⟨x, by simp, ha⟩
        · exact Or.inl hb
      · rcases ih h2 with hs | ⟨z, hz, hcz⟩
        · exact Or.inl hs
        · exact Or.inr ⟨z, List.mem_cons_of_mem _ hz, hcz⟩

/-! ### Cycles `write_object` (claim C7) -/

/-- Mesh data for Cycles emission (`mesh.Topology` of the source: the
point list and the triangle index triples). -/
structure CyclesMesh where
  Topology : List Vec3 × List (Nat × Nat × Nat)

/-- `"{0.x} {0.y} {0.z}".format(p)` of the points loop. -/
def fmtVec3 (p : Vec3) : List Char :=
  fmtQ p.x ++ [' '] ++ fmtQ p.y ++ [' '] ++ fmtQ p.z

/-- `"{} {} {}".format(*v)` of the triangle loop. -/
def fmtTri (v : Nat × Nat × Nat) : List Char :=
  natChars v.1 ++ [' '] ++ natChars v.2.1 ++ [' '] ++ natChars v.2.2

/-- `snippet1` of `write_object` (`renderers/Cycles.py:71-74`), with its
interpolations expanded. -/
def snippet1Segs (n : List Char) (c : ℚ × ℚ × ℚ) : List Seg :=
  [.fixed "\n    <!-- Generated by FreeCAD - Object \x27", .var n,
   .fixed "\x27 -->\n    <shader name=\"", .var n,
   .fixed "_mat\">\n        <diffuse_bsdf name=\"", .var n,
   .fixed "_bsdf\" color=\"", .var (fmtQ c.1),
   .fixed ", ", .var (fmtQ c.2.1),
   .fixed ", ", .var (fmtQ c.2.2),
   .fixed "\"/>"]

/-- `snippet2a` (`renderers/Cycles.py:76-82`): the transparent branch. -/
def snippet2aSegs (n : List Char) (a : ℚ) : List Seg :=
  [.fixed "\n        <transparent_bsdf name=\"", .var n,
   .fixed "_trans\" color=\"1.0, 1.0, 1.0\"/>\n        <mix_closure name=\"",
   .var n, .fixed "_mix\" ", .fixed "fac=\"", .var (fmtQ a),
   .fixed "\"/>\n        <connect from=\"", .var n,
   .fixed "_trans bsdf\"  to=\"", .var n,
   .fixed "_mix closure1\"/>\n        <connect from=\"", .var n,
   .fixed "_bsdf bsdf\"   to=\"", .var n,
   .fixed "_mix closure2\"/>\n        <connect from=\"", .var n,
   .fixed "_mix closure\" to=\"output surface\"/>\n    </shader>"]

/-- `snippet2b` (`renderers/Cycles.py:84-86`): the opaque branch. -/
def snippet2bSegs (n : List Char) : List Seg :=
  [.fixed "\n        <connect from=\"", .var n,
   .fixed "_bsdf bsdf\"   to=\"output surface\"/>\n    </shader>"]

/-- `snippet3` (`renderers/Cycles.py:88-93`): the mesh state block, with
the `"  ".join(...)` blobs of points, nverts and verts. -/
def snippet3Segs (n : List Char) (m : CyclesMesh) : List Seg :=
  [.fixed "\n    <state shader=\"", .var n,
   .fixed "_mat\">\n        <mesh P=\"",
   .var (joinSep [' ', ' '] (m.Topology.1.map fmtVec3)),
   .fixed "\"\n              nverts=\"",
   .var (joinSep [' ', ' '] (m.Topology.2.map fun _ => ['3'])),
   .fixed "\"\n              verts=\"",
   .var (joinSep [' ', ' '] (m.Topology.2.map fmtTri)),
   .fixed "\"/>\n    </state>\n"]

/-- `write_object` (`renderers/Cycles.py:61-106`) as a segment list:
`snippet1 + (snippet2a if alpha < 1 else snippet2b) + snippet3`. -/
def objSegs (name : String) (m : CyclesMesh) (c : ℚ × ℚ × ℚ) (a : ℚ) :
    List Seg :=
  snippet1Segs name.data c ++
    (if a < 1 then snippet2aSegs name.data a else snippet2bSegs name.data) ++
    snippet3Segs name.data m

/-- `write_object`: the emitted Cycles XML text. -/
def write_object (name : String) (mesh : CyclesMesh) (color : ℚ × ℚ × ℚ)
    (alpha : ℚ) : String :=
  ⟨flatSegs (objSegs name mesh color alpha)⟩

/-- The opening of a `transparent_bsdf` XML node. -/
def transPat : List Char := "<transparent_bsdf".data

/-- The opening of a `mix_closure` XML node. -/
def mixPat : List Char := "<mix_closure".data

/-- The `fac="<alpha>"` attribute text of the mix node. -/
def facPat (a : ℚ) : List Char := "fac=\"".data ++ fmtQ a ++ ['"']

theorem fmtVec3_ne_lt (p : Vec3) (c : Char) (h : c ∈ fmtVec3 p) : c ≠ '<' := by
  unfold fmtVec3 at h
  simp only [List.mem_append, List.mem_singleton] at h
  rcases h with (((h | rfl) | h) | rfl) | h
  · exact fmtQ_ne_lt _ _ h
  · decide
  · exact fmtQ_ne_lt _ _ h
  · decide
  · exact fmtQ_ne_lt _ _ h

theorem fmtTri_ne_lt (v : Nat × Nat × Nat) (c : Char) (h : c ∈ fmtTri v) :
    c ≠ '<' := by
  unfold fmtTri at h
  simp only [List.mem_append, List.mem_singleton] at h
  rcases h with (((h | rfl) | h) | rfl) | h
  · exact natChars_ne_lt _ _ h
  · decide
  · exact natChars_ne_lt _ _ h
  · decide
  · exact natChars_ne_lt _ _ h

theorem sep2_ne_lt (c : Char) (h : c ∈ ([' ', ' '] : List Char)) : c ≠ '<' := by
  rcases List.mem_cons.mp h with rfl | h'
  · decide
  · rw [List.mem_singleton] at h'
    exact h' ▸ (by decide)

theorem blob_vec_ne_lt (m : CyclesMesh) (c : Char)
    (h : c ∈ joinSep [' ', ' '] (m.Topology.1.map fmtVec3)) : c ≠ '<' := by
  rcases joinSep_mem _ _ _ h with hs | ⟨x, hx, hcx⟩
  · exact sep2_ne_lt c hs
  · rw [List.mem_map] at hx
    obtain ⟨p, -, rfl⟩ := hx
    exact fmtVec3_ne_lt p c hcx

theorem blob_nverts_ne_lt (m : CyclesMesh) (c : Char)
    (h : c ∈ joinSep [' ', ' '] (m.Topology.2.map fun _ => ['3'])) :
    c ≠ '<' := by
  rcases joinSep_mem _ _ _ h with hs | ⟨x, hx, hcx⟩
  · exact sep2_ne_lt c hs
  · rw [List.mem_map] at hx
    obtain ⟨-, -, rfl⟩ := hx
    rw [List.mem_singleton] at hcx
    exact hcx ▸ (by decide)

theorem blob_tri_ne_lt (m : CyclesMesh) (c : Char)
    (h : c ∈ joinSep [' ', ' '] (m.Topology.2.map fmtTri)) : c ≠ '<' := by
  rcases joinSep_mem _ _ _ h with hs | ⟨x, hx, hcx⟩
  · exact sep2_ne_lt c hs
  · rw [List.mem_map] at hx
    obtain ⟨v, -, rfl⟩ := hx
    exact fmtTri_ne_lt v c hcx

theorem fmtQ_not_lt (q : ℚ) : '<' ∉ fmtQ q := fun h => fmtQ_ne_lt q '<' h rfl

theorem blob_vec_not_lt (m : CyclesMesh) :
    '<' ∉ joinSep [' ', ' '] (m.Topology.1.map fmtVec3) :=
  fun h => blob_vec_ne_lt m '<' h rfl

theorem blob_nverts_not_lt (m : CyclesMesh) :
    '<' ∉ joinSep [' ', ' '] (m.Topology.2.map fun _ => ['3']) :=
  fun h => blob_nverts_ne_lt m '<' h rfl

theorem blob_tri_not_lt (m : CyclesMesh) :
    '<' ∉ joinSep [' ', ' '] (m.Topology.2.map fmtTri) :=
  fun h => blob_tri_ne_lt m '<' h rfl

theorem segOk_s1 (n : List Char) (c : ℚ × ℚ × ℚ) (hn : '<' ∉ n) :
    ∀ s ∈ snippet1Segs n c, SegOkN '<' transPat s ∧ SegOkN '<' mixPat s := by
  intro s hs
  simp only [snippet1Segs, List.mem_cons, List.not_mem_nil, or_false] at hs
  rcases hs with rfl | rfl | rfl | rfl | rfl | rfl | rfl | rfl | rfl | rfl |
    rfl | rfl | rfl
  · exact ⟨by decide, by decide⟩
  · exact ⟨hn, hn⟩
  · exact ⟨by decide, by decide⟩
  · exact ⟨hn, hn⟩
  · exact ⟨by decide, by decide⟩
  · exact ⟨hn, hn⟩
  · exact ⟨by decide, by decide⟩
  · exact ⟨fmtQ_not_lt _, fmtQ_not_lt _⟩
  · exact ⟨by decide, by decide⟩
  · exact ⟨fmtQ_not_lt _, fmtQ_not_lt _⟩
  · exact ⟨by decide, by decide⟩
  · exact ⟨fmtQ_not_lt _, fmtQ_not_lt _⟩
  · exact ⟨by decide, by decide⟩

theorem segOk_s2b (n : List Char) (hn : '<' ∉ n) :
    ∀ s ∈ snippet2bSegs n, SegOkN '<' transPat s ∧ SegOkN '<' mixPat s := by
  intro s hs
  simp only [snippet2bSegs, List.mem_cons, List.not_mem_nil, or_false] at hs
  rcases hs with rfl | rfl | rfl
  · exact ⟨by decide, by decide⟩
  · exact ⟨hn, hn⟩
  · exact ⟨by decide, by decide⟩

theorem segOk_s3 (n : List Char) (m : CyclesMesh) (hn : '<' ∉ n) :
    ∀ s ∈ snippet3Segs n m, SegOkN '<' transPat s ∧ SegOkN '<' mixPat s := by
  intro s hs
  simp only [snippet3Segs, List.mem_cons, List.not_mem_nil, or_false] at hs
  rcases hs with rfl | rfl | rfl | rfl | rfl | rfl | rfl | rfl | rfl
  · exact ⟨by decide, by decide⟩
  · exact ⟨hn, hn⟩
  · exact ⟨by decide, by decide⟩
  · exact ⟨blob_vec_not_lt m, blob_vec_not_lt m⟩
  · exact ⟨by decide, by decide⟩
  · exact ⟨blob_nverts_not_lt m, blob_nverts_not_lt m⟩
  · exact ⟨by decide, by decide⟩
  · exact ⟨blob_tri_not_lt m, blob_tri_not_lt m⟩
  · exact ⟨by decide, by decide⟩

/-- Claim C7: the Cycles mesh emitter's shader graph structure depends
on alpha.  When `alpha = 1.0` the emitted text contains no
`<transparent_bsdf` and no `<mix_closure` node; when `alpha < 1.0` it
contains both, with the mix factor attribute `fac="<alpha>"`.  The name
hypothesis `'<' ∉ name.data` states that the object name contains no tag
opener (FreeCAD object names are alphanumeric). -/
theorem write_object_transparency (name : String) (mesh : CyclesMesh)
    (color : ℚ × ℚ × ℚ) (alpha : ℚ) (hn : '<' ∉ name.data) :
    (alpha = 1 →
      ¬ transPat <:+: (write_object name mesh color alpha).data ∧
      ¬ mixPat <:+: (write_object name mesh color alpha).data) ∧
    (alpha < 1 →
      transPat <:+: (write_object name mesh color alpha).data ∧
      mixPat <:+: (write_object name mesh color alpha).data ∧
      facPat alpha <:+: (write_object name mesh color alpha).data) := by
  constructor
  · intro ha
    have hbranch : objSegs name mesh color alpha =
        snippet1Segs name.data color ++ snippet2bSegs name.data ++
          snippet3Segs name.data mesh := by
      rw [objSegs, if_neg]
      rw [ha]
      exact lt_irrefl 1
    have hall : ∀ s ∈ objSegs name mesh color alpha,
        SegOkN '<' transPat s ∧ SegOkN '<' mixPat s := by
      rw [hbranch]
      intro s hs
      rcases List.mem_append.mp hs with hs' | hs3
      · rcases List.mem_append.mp hs' with hs1 | hs2
        · exact segOk_s1 _ _ hn s hs1
        · exact segOk_s2b _ hn s hs2
      · exact segOk_s3 _ _ hn s hs3
    exact ⟨not_occ_flat '<' "transparent_bsdf".data _ fun s hs => (hall s hs).1,
           not_occ_flat '<' "mix_closure".data _ fun s hs => (hall s hs).2⟩
  · intro ha
    have hbranch : objSegs name mesh color alpha =
        snippet1Segs name.data color ++ snippet2aSegs name.data alpha ++
          snippet3Segs name.data mesh := by
      rw [objSegs, if_pos ha]
    refine ⟨?_, ?_, ?_⟩
    · have hmem : Seg.fixed "\n        <transparent_bsdf name=\"" ∈
          objSegs name mesh color alpha := by
        rw [hbranch]
        simp [snippet2aSegs]
      exact (show transPat <:+:
          (Seg.fixed "\n        <transparent_bsdf name=\"").chars by decide).trans
        (chars_infix_flat _ _ hmem)
    · have hmem : Seg.fixed
          "_trans\" color=\"1.0, 1.0, 1.0\"/>\n        <mix_closure name=\"" ∈
          objSegs name mesh color alpha := by
        rw [hbranch]
        simp [snippet2aSegs]
      exact (show mixPat <:+: (Seg.fixed
          "_trans\" color=\"1.0, 1.0, 1.0\"/>\n        <mix_closure name=\"").chars
        by decide).trans (chars_infix_flat _ _ hmem)
    · have hsub : [Seg.fixed "fac=\"", Seg.var (fmtQ alpha),
          Seg.fixed "\"/>\n        <connect from=\""] <:+:
          objSegs name mesh color alpha := by
        rw [hbranch]
        refine ⟨snippet1Segs name.data color ++
          [Seg.fixed "\n        <transparent_bsdf name=\"", Seg.var name.data,
           Seg.fixed
             "_trans\" color=\"1.0, 1.0, 1.0\"/>\n        <mix_closure name=\"",
           Seg.var name.data, Seg.fixed "_mix\" "],
          [Seg.var name.data, Seg.fixed "_trans bsdf\"  to=\"",
           Seg.var name.data,
           Seg.fixed "_mix closure1\"/>\n        <connect from=\"",
           Seg.var name.data, Seg.fixed "_bsdf bsdf\"   to=\"",
           Seg.var name.data,
           Seg.fixed "_mix closure2\"/>\n        <connect from=\"",
           Seg.var name.data,
           Seg.fixed "_mix closure\" to=\"output surface\"/>\n    </shader>"] ++
            snippet3Segs name.data mesh, ?_⟩
        simp [snippet2aSegs]
      have h1 : facPat alpha <+: flatSegs [Seg.fixed "fac=\"",
          Seg.var (fmtQ alpha), Seg.fixed "\"/>\n        <connect from=\""] := by
        show ("fac=\"".data ++ fmtQ alpha ++ ['"']) <+:
          ("fac=\"".data ++ (fmtQ alpha ++ ("\"/>\n        <connect from=\"".data ++ [])))
        rw [List.append_assoc]
        rw [ List.prefix_append_right_inj]
        rw [ List.prefix_append_right_inj]
        decide
      exact (inf_of_pre h1).trans (seg_infix_flat _ _ hsub)

/-! ### Cycles `write_sunskylight` (claim C8) -/

/-- Squared length of a rational vector (through the reducible
arithmetic wrappers).  FreeCAD's `Vector.Length` is its square root, so
`Length` is zero exactly when this is. -/
def Vec3.lengthSq (v : Vec3) : ℚ :=
  qadd (qadd (qmul v.x v.x) (qmul v.y v.y)) (qmul v.z v.z)

/-- Real-valued 3-vector, for the square-root normalization step. -/
structure RVec3 where
  x : ℝ
  y : ℝ
  z : ℝ

/-- Real view of a rational vector. -/
noncomputable def Vec3.toR (v : Vec3) : RVec3 := ⟨(v.x : ℝ), (v.y : ℝ), (v.z : ℝ)⟩

/-- Squared euclidean length. -/
def RVec3.lengthSqR (v : RVec3) : ℝ := v.x ^ 2 + v.y ^ 2 + v.z ^ 2

/-- FreeCAD `Vector.normalize()`: divide each component by the length
`sqrt(x^2+y^2+z^2)`. -/
noncomputable def RVec3.normalize (v : RVec3) : RVec3 :=
  ⟨v.x / Real.sqrt v.lengthSqR, v.y / Real.sqrt v.lengthSqR,
   v.z / Real.sqrt v.lengthSqR⟩

/-- The values interpolated into the sun-sky background snippet
(`renderers/Cycles.py:213-224`): the shader name, the normalized
`sun_direction` of the `sky_texture` node, and the turbidity. -/
structure SunskyXml where
  name : String
  sun_direction : RVec3
  turbidity : ℚ

set_option linter.unusedVariables false in
/-- `write_sunskylight` (`renderers/Cycles.py:202-227`): asserts that
the direction has non-zero length (`assert direction.Length`, an
`AssertionError` on a zero vector), then normalizes the direction
defensively and interpolates it into the sky-texture snippet.  The
`distance` parameter is accepted and unused, as in the source. -/
noncomputable def write_sunskylight (name : String) (direction : Vec3)
    (distance : ℚ) (turbidity : ℚ) : Except CamErr SunskyXml :=
  if direction.lengthSq = 0 then .error (.assertFail "direction.Length")
  else .ok ⟨name, (Vec3.toR direction).normalize, turbidity⟩

theorem lengthSq_eq (v : Vec3) :
    v.lengthSq = v.x * v.x + v.y * v.y + v.z * v.z := by
  rw [Vec3.lengthSq, qadd_eq, qadd_eq, qmul_eq, qmul_eq, qmul_eq]

theorem lengthSq_eq_zero_iff (v : Vec3) : v.lengthSq = 0 ↔ v = ⟨0, 0, 0⟩ := by
  rcases v with ⟨x, y, z⟩
  rw [lengthSq_eq]
  constructor
  · intro h
    obtain ⟨hxy, hz⟩ :=
      (add_eq_zero_iff_of_nonneg
        (add_nonneg (mul_self_nonneg _) (mul_self_nonneg _))
        (mul_self_nonneg _)).mp h
    obtain ⟨hx, hy⟩ :=
      (add_eq_zero_iff_of_nonneg (mul_self_nonneg _) (mul_self_nonneg _)).mp hxy
    simp only [Vec3.mk.injEq]
    exact ⟨mul_self_eq_zero.mp hx, mul_self_eq_zero.mp hy,
      mul_self_eq_zero.mp hz⟩
  · intro h
    cases h
    norm_num

/-- Claim C8: a zero-length direction makes `write_sunskylight` fail
with the precondition `AssertionError` and produce no output; any
non-zero direction succeeds, and the emitted `sun_direction` is the
defensively normalized (unit-length) direction. -/
theorem write_sunskylight_spec (name : String) (dir : Vec3)
    (distance turbidity : ℚ) :
    (dir = ⟨0, 0, 0⟩ →
      write_sunskylight name dir distance turbidity =
        .error (.assertFail "direction.Length")) ∧
    (dir ≠ ⟨0, 0, 0⟩ →
      write_sunskylight name dir distance turbidity =
        .ok ⟨name, (Vec3.toR dir).normalize, turbidity⟩ ∧
      RVec3.lengthSqR ((Vec3.toR dir).normalize) = 1) := by
  constructor
  · intro h
    rw [write_sunskylight, if_pos ((lengthSq_eq_zero_iff dir).mpr h)]
  · intro h
    have hne : dir.lengthSq ≠ 0 := fun h0 => h ((lengthSq_eq_zero_iff dir).mp h0)
    rw [write_sunskylight, if_neg hne]
    refine ⟨rfl, ?_⟩
    have hspos : (0 : ℝ) < (Vec3.toR dir).lengthSqR := by
      have h0 : (0 : ℚ) ≤ dir.lengthSq := by
        rw [lengthSq_eq]
        exact add_nonneg (add_nonneg (mul_self_nonneg _) (mul_self_nonneg _))
          (mul_self_nonneg _)
      have hq : (0 : ℚ) < dir.lengthSq := by
        rcases lt_or_eq_of_le h0 with h1 | h1
        · exact h1
        · exact absurd h1.symm hne
      have hcast : ((dir.lengthSq : ℚ) : ℝ) = (Vec3.toR dir).lengthSqR := by
        rw [lengthSq_eq]
        simp only [RVec3.lengthSqR, Vec3.toR]
        push_cast
        ring
      rw [← hcast]
      exact_mod_cast hq
    have hsqrt : Real.sqrt ((Vec3.toR dir).lengthSqR) ≠ 0 :=
      ne_of_gt (Real.sqrt_pos.mpr hspos)
    simp only [RVec3.normalize, RVec3.lengthSqR] at hsqrt ⊢
    field_simp
    exact div_self (ne_of_gt hspos)

/-- Witness for C8: a zero direction fails the precondition; the unit-z
direction succeeds with a unit-length embedded direction. -/
theorem write_sunskylight_witness :
    write_sunskylight "sun" ⟨0, 0, 0⟩ 100 2 =
      .error (.assertFail "direction.Length") ∧
    write_sunskylight "sun" ⟨0, 0, 1⟩ 100 2 =
      .ok ⟨"sun", (Vec3.toR ⟨0, 0, 1⟩).normalize, 2⟩ ∧
    RVec3.lengthSqR ((Vec3.toR ⟨0, 0, 1⟩).normalize) = 1 :=
  ⟨(write_sunskylight_spec "sun" ⟨0, 0, 0⟩ 100 2).1 rfl,
   ((write_sunskylight_spec "sun" ⟨0, 0, 1⟩ 100 2).2 (by decide)).1,
   ((write_sunskylight_spec "sun" ⟨0, 0, 1⟩ 100 2).2 (by decide)).2⟩

/-! ### Cycles `render` invocation (claims C9 and C10) -/

/-- The host preferences store read by `render`
(`App.ParamGet("User parameter:BaseApp/Preferences/Mod/Render")`):
`GetString key default` returns the configured string or the default. -/
structure ParamStore where
  GetString : String → String → String

/-- The rendering project: `render` only reads `project.PageResult`,
the path of the generated scene file. -/
structure CyProject where
  PageResult : String

/-- Observable outcome of `render` (`renderers/Cycles.py:235-273`):
error messages printed via `App.Console.PrintError`, messages printed
via `PrintMessage`, the command lines passed to `os.system`, and the
returned value. -/
structure RenderOut where
  errors : List String
  messages : List String
  commands : List String
  result : String
deriving DecidableEq, Repr

set_option linter.unusedVariables false in
/-- `render` (`renderers/Cycles.py:235-273`).  The `pfx` parameter (the
source's `prefix` argument) is immediately overwritten by the `Prefix`
preference before any use.  `sys` models `os.system`: it maps the
command line to the external process's exit status, which the source
discards.  An empty `CyclesPath` prints the configuration error and
returns the empty-string sentinel without invoking `sys`. -/
def cycles_render (params : ParamStore) (project : CyProject) (pfx : String)
    (external : Bool) (output : String) (width height : Nat)
    (sys : String → Int) : RenderOut :=
  let pfx := params.GetString "Prefix" ""
  let pfx := if pfx ≠ "" then pfx ++ " " else pfx
  let rpath := params.GetString "CyclesPath" ""
  let args := params.GetString "CyclesParameters" ""
  let args := args ++ " --output " ++ output
  let args := if ¬ external then args ++ " --background" else args
  if rpath = "" then
    { errors := ["Unable to locate renderer executable. Please set the " ++
        "correct path in Edit -> Preferences -> Render\n"],
      messages := [], commands := [], result := "" }
  else
    let args := args ++ " --width " ++ toString width
    let args := args ++ " --height " ++ toString height
    let cmd := pfx ++ rpath ++ " " ++ args ++ " " ++ project.PageResult
    let _exit := sys cmd
    { errors := [], messages := [cmd ++ "\n"], commands := [cmd],
      result := output }

/-- Claim C9: with an empty configured executable path, `render` prints
the user-facing configuration diagnostic and returns the empty-string
sentinel without invoking any external command; with a configured path
it returns exactly the output path it was given, and its entire outcome
is independent of the spawned process's exit status (`os.system`'s
return value is discarded, and no file existence is checked). -/
theorem cycles_render_spec (params : ParamStore) (project : CyProject)
    (pfx : String) (external : Bool) (output : String) (width height : Nat)
    (sys : String → Int) :
    (params.GetString "CyclesPath" "" = "" →
      cycles_render params project pfx external output width height sys =
        { errors := ["Unable to locate renderer executable. Please set the " ++
            "correct path in Edit -> Preferences -> Render\n"],
          messages := [], commands := [], result := "" }) ∧
    (params.GetString "CyclesPath" "" ≠ "" →
      (cycles_render params project pfx external output width height sys).result
          = output ∧
      (cycles_render params project pfx external output width height sys).errors
          = [] ∧
      (cycles_render params project pfx external output width height sys).commands.length
          = 1 ∧
      ∀ sys' : String → Int,
        cycles_render params project pfx external output width height sys' =
          cycles_render params project pfx external output width height sys) := by
  constructor
  · intro h
    rw [cycles_render]
    simp [h]
  · intro h
    refine ⟨?_, ?_, ?_, fun sys' => ?_⟩ <;> simp [cycles_render, h]

/-- Witness for C9: a store with no path configured, and one with
`/usr/bin/cycles`. -/
theorem cycles_render_spec_witness :
    (cycles_render ⟨fun _ d => d⟩ ⟨"scene.xml"⟩ "p" false "out.png" 800 600
        (fun _ => 0)).result = "" ∧
    (cycles_render ⟨fun k d => if k = "CyclesPath" then "/usr/bin/cycles" else d⟩
        ⟨"scene.xml"⟩ "p" false "out.png" 800 600 (fun _ => 0)).result =
      "out.png" := by
  constructor
  · rw [(cycles_render_spec ⟨fun _ d => d⟩ ⟨"scene.xml"⟩ "p" false "out.png"
      800 600 (fun _ => 0)).1 rfl]
  · exact ((cycles_render_spec
      ⟨fun k d => if k = "CyclesPath" then "/usr/bin/cycles" else d⟩
      ⟨"scene.xml"⟩ "p" false "out.png" 800 600 (fun _ => 0)).2
      (by decide)).1

/-- Claim C10: the `prefix` parameter of `render` has no effect — the
function's outcome is identical for any two values, because the
parameter is unconditionally overwritten by the `Prefix` preference
before any use. -/
theorem cycles_render_ignores_prefix_param (params : ParamStore)
    (project : CyProject) (p₁ p₂ : String) (external : Bool) (output : String)
    (width height : Nat) (sys : String → Int) :
    cycles_render params project p₁ external output width height sys =
      cycles_render params project p₂ external output width height sys := rfl

/-- A one-triangle mesh for the C7 witness. -/
def exMesh : CyclesMesh :=
  ⟨([⟨0, 0, 0⟩, ⟨1, 0, 0⟩, ⟨0, 1, 0⟩], [(0, 1, 2)])⟩

/-- Witness for C7: opaque (`alpha = 1`) emission of a concrete mesh has
no transparency construct; `alpha = 0 < 1` emission has both nodes and
the mix factor. -/
theorem write_object_transparency_witness :
    ¬ transPat <:+: (write_object "box" exMesh (1, 0, 0) 1).data ∧
    ¬ mixPat <:+: (write_object "box" exMesh (1, 0, 0) 1).data ∧
    transPat <:+: (write_object "box" exMesh (1, 0, 0) 0).data ∧
    mixPat <:+: (write_object "box" exMesh (1, 0, 0) 0).data ∧
    facPat 0 <:+: (write_object "box" exMesh (1, 0, 0) 0).data :=
  ⟨((write_object_transparency "box" exMesh (1, 0, 0) 1 (by decide)).1 rfl).1,
   ((write_object_transparency "box" exMesh (1, 0, 0) 1 (by decide)).1 rfl).2,
   ((write_object_transparency "box" exMesh (1, 0, 0) 0 (by decide)).2
     (by decide)).1,
   ((write_object_transparency "box" exMesh (1, 0, 0) 0 (by decide)).2
     (by decide)).2.1,
   ((write_object_transparency "box" exMesh (1, 0, 0) 0 (by decide)).2
     (by decide)).2.2⟩
